import Mathlib

/-!
Shallow embedding of the `expo-persistent-notifications` module
(`sinnick/expo-live-notifications`): the Android side
(`ExpoPersistentNotificationsModule` + `LocationTrackingService` +
`NotificationHelper`) and the iOS side
(`ExpoPersistentNotificationsModule` over `UNUserNotificationCenter`).

Untyped option maps crossing the JS boundary are modelled with `Option`
fields: `none` plays the role of a missing key or a failed `as?` cast.
Opaque platform styling (color, priority, channelId, progress, badge,
sound, …) is pass-through data never inspected by the logic under
verification and is omitted from the records.  Real time is an explicit
`Int` millisecond parameter (`System.currentTimeMillis()`); `Double`
division by `60000.0` and `Math.ceil` are modelled exactly on integers.
The Android main-looper `Handler` is modelled as the list of callbacks
currently scheduled on it.
-/

namespace PersistentNotifications

/-- The `content` map of the JS options: `title` / `body` strings (a missing
key or a non-string value is `none`). Custom `data` is opaque pass-through
and omitted. -/
structure ContentSpec where
  title : Option String
  body : Option String
deriving DecidableEq, Repr

/-- One entry of the JS `actions` array: `id`, `title`, `foreground`. -/
structure ActionSpec where
  id : Option String
  title : Option String
  foreground : Option Bool
deriving DecidableEq, Repr

/-- The JS options object passed to `startPersistentNotification`. -/
structure StartOptions where
  id : Option String
  content : Option ContentSpec
  actions : Option (List ActionSpec)
  arrivalMinutes : Option Int
deriving DecidableEq, Repr

/-- Result of an `AsyncFunction` promise: resolved, or rejected with an
error code. -/
inductive PromiseResult where
  | resolved
  | rejected (code : String)
deriving DecidableEq, Repr

/-- An action button actually registered on an Android notification by
`NotificationHelper.buildNotification` (`builder.addAction`): the title
shown and the `ACTION_ID` embedded in its pending intent. -/
structure RegisteredAction where
  id : String
  title : String
deriving DecidableEq, Repr

/-- The observable part of the `Notification` object built by
`NotificationHelper.buildNotification`. -/
structure BuiltNotification where
  title : String
  body : String
  actions : List RegisteredAction
deriving DecidableEq, Repr

/-- Events observable from JavaScript: `sendEvent` payloads and
notification posts to the OS surface. -/
inductive Event where
  | statusChange (isRunning : Bool) (notificationId : Option String)
  | notificationUpdate (id : String)
  | render (n : BuiltNotification)
deriving DecidableEq, Repr

/-! ## Android: `NotificationHelper.buildNotification` -/

/-- Kotlin `actions.take(3).forEach { ... }` in `buildNotification`: entries whose
`id` or `title` is missing are skipped (`?: return@forEach`). -/
def androidActions (actions : List ActionSpec) : List RegisteredAction :=
  (actions.take 3).filterMap fun a =>
    match a.id, a.title with
    | some i, some t => some { id := i, title := t }
    | _, _ => none

/-- Model of `NotificationHelper.buildNotification`: title and body default to `""`,
action buttons are added only when the list is non-null and non-empty,
truncated with `take(3)`. -/
def buildNotification (opts : StartOptions) : BuiltNotification :=
  let content := opts.content.getD { title := none, body := none }
  { title := content.title.getD ""
    body := content.body.getD ""
    actions :=
      match opts.actions with
      | none => []
      | some acts => if acts.isEmpty then [] else androidActions acts }

/-! ## Android: `LocationTrackingService` -/

/-- A callback scheduled on the service's `Handler`: the auto-update
`updateRunnable`, or the 5-second grace-window lambda posted when the
arrival deadline has passed. -/
inductive Callback where
  | tick
  | graceStop
deriving DecidableEq, Repr

/-- State of `LocationTrackingService` (companion-object flags plus the
instance fields) together with the callbacks pending on its `Handler`. -/
structure AndroidState where
  isRunning : Bool
  currentNotificationId : Option String
  notificationOptions : Option StartOptions
  arrivalTimeMillis : Int
  handlerAlive : Bool
  updateRunnableSet : Bool
  scheduled : List Callback
deriving DecidableEq, Repr

/-- Initial state: no service running, nothing scheduled. -/
def AndroidState.init : AndroidState :=
  { isRunning := false, currentNotificationId := none, notificationOptions := none
    arrivalTimeMillis := 0, handlerAlive := false, updateRunnableSet := false
    scheduled := [] }

/-- Model of `LocationTrackingService.isServiceRunning()`. -/
def isServiceRunning (st : AndroidState) : Bool :=
  st.isRunning

/-- Model of `startForegroundNotification`: stores the options and id, posts the
built notification via `startForeground`, sets `isRunning = true`. -/
def startForegroundNotification (st : AndroidState) (opts : StartOptions) :
    AndroidState × List Event :=
  let st := { st with notificationOptions := some opts, currentNotificationId := opts.id }
  let n := buildNotification opts
  ({ st with isRunning := true }, [Event.render n])

/-- Model of `startAutoUpdate`: allocates the handler and the update runnable and
posts the runnable (`handler?.post(updateRunnable!!)`). -/
def startAutoUpdate (st : AndroidState) : AndroidState :=
  { st with handlerAlive := true, updateRunnableSet := true
            scheduled := st.scheduled ++ [Callback.tick] }

/-- Model of `stopAutoUpdate`: `updateRunnable?.let { handler?.removeCallbacks(it) }`
removes the pending tick only when both the runnable and the handler are
non-null, then nulls both fields.  The grace-window lambda is a different
runnable and is not removed. -/
def stopAutoUpdate (st : AndroidState) : AndroidState :=
  let scheduled :=
    if st.updateRunnableSet && st.handlerAlive then
      st.scheduled.filter (· != Callback.tick)
    else st.scheduled
  { st with scheduled := scheduled, handlerAlive := false, updateRunnableSet := false }

/-- Model of `stopForegroundService`: removes the foreground notification and clears
the running flag, current id and stored options. -/
def stopForegroundService (st : AndroidState) : AndroidState :=
  { st with isRunning := false, currentNotificationId := none, notificationOptions := none }

/-- Body template of `updateNotificationWithTime`. -/
def busBody (minutes : Int) : String :=
  if minutes > 1 then "Próximo bus en " ++ toString minutes ++ " minutos"
  else if minutes = 1 then "Próximo bus en 1 minuto"
  else "¡El bus está llegando!"

/-- The content map `updateNotificationWithTime` writes into the stored
options: constant title, time-templated body. -/
def withAutoContent (opts : StartOptions) (minutes : Int) : StartOptions :=
  { opts with content := some { title := some "Rastreando ubicación", body := some (busBody minutes) } }

/-- Model of `updateNotificationWithTime(minutes)`: bails out when no options are
stored (`?: return`); otherwise overwrites the stored content and posts the
rebuilt notification via `notificationManager.notify`. -/
def updateNotificationWithTime (st : AndroidState) (minutes : Int) :
    AndroidState × List Event :=
  match st.notificationOptions with
  | none => (st, [])
  | some opts =>
    let updated := withAutoContent opts minutes
    ({ st with notificationOptions := some updated },
     [Event.render (buildNotification updated)])

/-- Kotlin `Math.ceil(remainingMs / 60000.0).toInt()`, modelled exactly:
the integer ceiling of `remainingMs / 60000`. -/
def ceilMinutes (remainingMs : Int) : Int :=
  -((-remainingMs) / 60000)

/-- The body of the auto-update `Runnable` at wall-clock `now`:
if the remaining time is `<= 0`, render the terminal variant and post the
5-second grace-window lambda; otherwise render the ceiling of the remaining
minutes and re-post itself after the tick interval. -/
def runUpdateRunnable (st : AndroidState) (now : Int) : AndroidState × List Event :=
  let remainingMs := st.arrivalTimeMillis - now
  if remainingMs ≤ 0 then
    let r := updateNotificationWithTime st 0
    let st := if r.1.handlerAlive then
        { r.1 with scheduled := r.1.scheduled ++ [Callback.graceStop] }
      else r.1
    (st, r.2)
  else
    let r := updateNotificationWithTime st (ceilMinutes remainingMs)
    let st := if r.1.handlerAlive then
        { r.1 with scheduled := r.1.scheduled ++ [Callback.tick] }
      else r.1
    (st, r.2)

/-- Model of `onStartCommand` with `ACTION = "START"` and non-null options:
`arrivalMinutes` defaults to 5 when missing, the deadline is
`now + arrivalMinutes * 60 * 1000`, then `startForegroundNotification`
and `startAutoUpdate` run unconditionally. -/
def onStartCommandStart (st : AndroidState) (opts : StartOptions) (now : Int) :
    AndroidState × List Event :=
  let arrivalMinutes := opts.arrivalMinutes.getD 5
  let st := { st with arrivalTimeMillis := now + arrivalMinutes * 60 * 1000 }
  let r := startForegroundNotification st opts
  (startAutoUpdate r.1, r.2)

/-! ## Android: module-level `AsyncFunction`s -/

/-- Android `startPersistentNotification`: delivers the `START` intent to
the service, then emits `onServiceStatusChange{isRunning:true}` and
resolves (the module performs no validation of the options). -/
def androidStartPersistentNotification (st : AndroidState) (opts : StartOptions)
    (now : Int) : AndroidState × List Event × PromiseResult :=
  let r := onStartCommandStart st opts now
  (r.1, r.2 ++ [Event.statusChange true opts.id], PromiseResult.resolved)

/-- Android `stopPersistentNotification`: `context.stopService` tears the
service down when it is running (`stopAutoUpdate` then the foreground
teardown, as in the `STOP` handler and `onDestroy`) and is a no-op
otherwise; the module then emits `onServiceStatusChange{isRunning:false}`
unconditionally and resolves. -/
def androidStopPersistentNotification (st : AndroidState) (id : String) :
    AndroidState × List Event × PromiseResult :=
  let st := if st.isRunning then stopForegroundService (stopAutoUpdate st) else st
  (st, [Event.statusChange false (some id)], PromiseResult.resolved)

/-- Android `isNotificationActive`: ignores its argument and returns
`LocationTrackingService.isServiceRunning()`. -/
def androidIsNotificationActive (st : AndroidState) (_id : String) : Bool :=
  isServiceRunning st

/-! ## Permission reduction -/

/-- The `PermissionResponse` map resolved by the permission functions. -/
structure PermissionResponse where
  status : String
  notifications : Bool
  location : Bool
deriving DecidableEq, Repr

/-- Android `NotificationHelper.getPermissionStatus`: notification
permission is the `POST_NOTIFICATIONS` check on API 33+ and always granted
below; location is the `ACCESS_FINE_LOCATION` check; the overall status
collapses to granted / denied (the `"undetermined"` arm is unreachable). -/
def androidGetPermissionStatus (sdk33 postNotifications fineLocation : Bool) :
    PermissionResponse :=
  let notificationsGranted := if sdk33 then postNotifications else true
  let locationGranted := fineLocation
  let status :=
    if notificationsGranted && locationGranted then "granted"
    else if !notificationsGranted || !locationGranted then "denied"
    else "undetermined"
  { status := status, notifications := notificationsGranted, location := locationGranted }

/-- Android `requestPermissions` on API 33+, given the grant results of the
`POST_NOTIFICATIONS` and `ACCESS_FINE_LOCATION` prompts. -/
def androidRequestPermissions33 (notificationGranted locationGranted : Bool) :
    PermissionResponse :=
  let allGranted := notificationGranted && locationGranted
  { status := if allGranted then "granted" else "denied"
    notifications := notificationGranted, location := locationGranted }

/-- Android `requestPermissions` below API 33: only location is prompted
and `notifications` is reported as always granted. -/
def androidRequestPermissionsPre13 (locationGranted : Bool) : PermissionResponse :=
  { status := if locationGranted then "granted" else "denied"
    notifications := true, location := locationGranted }

/-- iOS `requestPermissions`, given the `requestAuthorization` outcome:
location is always reported `false` ("Location permissions are separate on
iOS") and the status follows the notification grant alone. -/
def iosRequestPermissions (granted : Bool) : PermissionResponse :=
  { status := if granted then "granted" else "denied"
    notifications := granted, location := false }

/-! ## iOS: `ExpoPersistentNotificationsModule` over `UNUserNotificationCenter` -/

/-- An action of a registered `UNNotificationCategory` as produced by
`setupNotificationActions`: identifier, title and the `.foreground`
option flag. -/
structure IOSAction where
  identifier : String
  title : String
  foreground : Bool
deriving DecidableEq, Repr

/-- A registered `UNNotificationCategory`. -/
structure IOSCategory where
  identifier : String
  actions : List IOSAction
deriving DecidableEq, Repr

/-- A pending `UNNotificationRequest`: identifier and the observable parts
of its `UNMutableNotificationContent` (badge / sound / subtitle / userInfo
are opaque pass-through and omitted). -/
structure IOSRequest where
  identifier : String
  title : String
  body : String
  categoryIdentifier : Option String
deriving DecidableEq, Repr

/-- State of the iOS module: the notification center's pending requests,
the module's `activeNotifications` dictionary, and the registered
category set (keyed by identifier). -/
structure IOSState where
  pending : List IOSRequest
  activeNotifications : List (String × Bool)
  categories : List IOSCategory
deriving DecidableEq, Repr

/-- Initial iOS state: nothing pending, nothing registered. -/
def IOSState.init : IOSState :=
  { pending := [], activeNotifications := [], categories := [] }

/-- Dictionary write `activeNotifications[id] = v`. -/
def setKey (m : List (String × Bool)) (k : String) (v : Bool) : List (String × Bool) :=
  (k, v) :: m.filter (·.1 != k)

/-- Dictionary read `activeNotifications[id]`. -/
def getKey (m : List (String × Bool)) (k : String) : Option Bool :=
  (m.find? (·.1 == k)).map (·.2)

/-- Model of `UNUserNotificationCenter.add`: a request replaces any pending request
with the same identifier. -/
def addRequest (pending : List IOSRequest) (req : IOSRequest) : List IOSRequest :=
  pending.filter (·.identifier != req.identifier) ++ [req]

/-- The actions kept by `setupNotificationActions`: `actions.prefix(3)`,
skipping entries whose `id` or `title` is missing (`guard ... else
continue`); `foreground` defaults to `false`. -/
def iosRegisteredActions (actions : List ActionSpec) : List IOSAction :=
  (actions.take 3).filterMap fun a =>
    match a.id, a.title with
    | some i, some t =>
      some { identifier := i, title := t, foreground := a.foreground.getD false }
    | _, _ => none

/-- Model of `setupNotificationActions`: builds the per-notification category
`"category_" ++ id`, registers it (the category set is keyed by
identifier) and returns its identifier. -/
def setupNotificationActions (st : IOSState) (actions : List ActionSpec)
    (notificationId : String) : IOSState × String :=
  let categoryId := "category_" ++ notificationId
  let category : IOSCategory :=
    { identifier := categoryId, actions := iosRegisteredActions actions }
  ({ st with categories :=
      category :: st.categories.filter (·.identifier != categoryId) },
   categoryId)

/-- iOS `startPersistentNotification`: the guard-let rejects with
`ERR_INVALID_OPTIONS` when `content`, `id`, `title` or `body` is missing
(there is no emptiness check); otherwise it registers an action category
when `actions` is present, adds the request, marks the id active and emits
`onServiceStatusChange{isRunning:true}`. -/
def iosStartPersistentNotification (st : IOSState) (opts : StartOptions) :
    IOSState × List Event × PromiseResult :=
  match opts.content, opts.id with
  | some content, some id =>
    match content.title, content.body with
    | some title, some body =>
      let r : IOSState × Option String :=
        match opts.actions with
        | some actions =>
          let s := setupNotificationActions st actions id
          (s.1, some s.2)
        | none => (st, none)
      let req : IOSRequest :=
        { identifier := id, title := title, body := body, categoryIdentifier := r.2 }
      let st :=
        { r.1 with pending := addRequest r.1.pending req
                   activeNotifications := setKey r.1.activeNotifications id true }
      (st, [Event.statusChange true (some id)], PromiseResult.resolved)
    | _, _ => (st, [], PromiseResult.rejected "ERR_INVALID_OPTIONS")
  | _, _ => (st, [], PromiseResult.rejected "ERR_INVALID_OPTIONS")

/-- iOS `updateNotificationContent`: rejects with `ERR_INVALID_CONTENT`
when `title` or `body` is missing; otherwise looks up the pending request
with this identifier, preserves its category when it exists (`none`
otherwise), and re-adds a request under the same identifier — a missing id
is NOT an error: a brand-new request is posted.  Emits
`onNotificationUpdate`. -/
def iosUpdateNotificationContent (st : IOSState) (id : String) (content : ContentSpec) :
    IOSState × List Event × PromiseResult :=
  match content.title, content.body with
  | some title, some body =>
    let existing := st.pending.find? (·.identifier == id)
    let req : IOSRequest :=
      { identifier := id, title := title, body := body
        categoryIdentifier := existing.bind (·.categoryIdentifier) }
    ({ st with pending := addRequest st.pending req },
     [Event.notificationUpdate id], PromiseResult.resolved)
  | _, _ => (st, [], PromiseResult.rejected "ERR_INVALID_CONTENT")

/-- iOS `stopPersistentNotification`: removes the pending and delivered
requests with this identifier, marks the id inactive, emits
`onServiceStatusChange{isRunning:false}` unconditionally, resolves. -/
def iosStopPersistentNotification (st : IOSState) (id : String) :
    IOSState × List Event × PromiseResult :=
  ({ st with pending := st.pending.filter (·.identifier != id)
             activeNotifications := setKey st.activeNotifications id false },
   [Event.statusChange false (some id)], PromiseResult.resolved)

/-- iOS `isNotificationActive`: whether a pending request carries this
identifier. -/
def iosIsNotificationActive (st : IOSState) (id : String) : Bool :=
  st.pending.any (·.identifier == id)

/-- The `UNUserNotificationCenter` authorization status. -/
inductive IOSAuthStatus where
  | authorized
  | provisional
  | ephemeral
  | denied
  | notDetermined
deriving DecidableEq, Repr

/-- iOS `getPermissionStatus`: maps the center's authorization status to
the response; location is always reported `false`. -/
def iosGetPermissionStatus (s : IOSAuthStatus) : PermissionResponse :=
  match s with
  | IOSAuthStatus.authorized => { status := "granted", notifications := true, location := false }
  | IOSAuthStatus.provisional => { status := "granted", notifications := true, location := false }
  | IOSAuthStatus.ephemeral => { status := "granted", notifications := true, location := false }
  | IOSAuthStatus.denied => { status := "denied", notifications := false, location := false }
  | IOSAuthStatus.notDetermined =>
    { status := "undetermined", notifications := false, location := false }

/-! ## Stale-timer machinery and sample inputs -/

/-- Sample content: both fields present. -/
def sampleContent : ContentSpec := { title := some "T", body := some "B" }

/-- Sample valid start options with an explicit `arrivalMinutes`. -/
def sampleOpts : StartOptions :=
  { id := some "bus", content := some sampleContent, actions := none
    arrivalMinutes := some 5 }

/-- Sample start options with `arrivalMinutes` absent. -/
def noArrivalOpts : StartOptions :=
  { id := some "n", content := some sampleContent, actions := none
    arrivalMinutes := none }

/-- Start options whose `id`, `title` and `body` are all present but empty. -/
def emptyIdOpts : StartOptions :=
  { id := some "", content := some { title := some "", body := some "" }
    actions := none, arrivalMinutes := none }

/-- A well-formed action entry. -/
def mkAction (i t : String) : ActionSpec :=
  { id := some i, title := some t, foreground := none }

/-- Five well-formed actions, to exercise truncation. -/
def fiveActions : List ActionSpec :=
  [mkAction "a1" "t1", mkAction "a2" "t2", mkAction "a3" "t3",
   mkAction "a4" "t4", mkAction "a5" "t5"]

/-- Event predicate: an `onServiceStatusChange` payload with
`isRunning:false`. -/
def isStopStatusEvent : Event → Bool
  | Event.statusChange false _ => true
  | _ => false

/-! ## Helper lemmas -/

/-- Adding a request makes a request with its identifier pending. -/
theorem any_addRequest (p : List IOSRequest) (r : IOSRequest) (id : String)
    (h : r.identifier = id) :
    (addRequest p r).any (·.identifier == id) = true := by
  simp [addRequest, h]

/-- After removing every request with a given identifier, none is left. -/
theorem any_filter_ne_identifier (p : List IOSRequest) (id : String) :
    (p.filter (·.identifier != id)).any (·.identifier == id) = false := by
  rw [List.any_eq_false]
  intro x hx
  have h := (List.mem_filter.mp hx).2
  simp only [bne_iff_ne, ne_eq] at h
  simp [h]

/-- Removing requests with an identifier that is not pending is a no-op. -/
theorem filter_ne_of_not_any (p : List IOSRequest) (id : String)
    (h : p.any (·.identifier == id) = false) :
    p.filter (·.identifier != id) = p := by
  rw [List.filter_eq_self]
  intro a ha
  have := List.any_eq_false.mp h a ha
  simpa using this

/-- An identifier with no pending request is not found by `find?`. -/
theorem find_eq_none_of_not_any (p : List IOSRequest) (id : String)
    (h : p.any (·.identifier == id) = false) :
    p.find? (·.identifier == id) = none := by
  rw [List.find?_eq_none]
  intro x hx
  have := List.any_eq_false.mp h x hx
  simpa using this

/-- A positive remaining time ceils to at least one minute. -/
theorem one_le_ceilMinutes (r : Int) (h : 0 < r) : 1 ≤ ceilMinutes r := by
  unfold ceilMinutes
  omega

/-! ## Claim theorems -/

/-- Claim C1: for every valid `start` input, `isActive(id)` returns true
immediately after `start(options)` with that id resolves, and returns
false immediately after `stop(id)` resolves — on iOS (pending-request
query) and on Android (service-running flag). -/
theorem c1_isActive_tracks_start_and_stop
    (stI : IOSState) (stA : AndroidState) (opts : StartOptions)
    (id title body : String) (c : ContentSpec) (now : Int)
    (hid : opts.id = some id) (hc : opts.content = some c)
    (ht : c.title = some title) (hb : c.body = some body) :
    iosIsNotificationActive (iosStartPersistentNotification stI opts).1 id = true ∧
    (∀ st : IOSState,
      iosIsNotificationActive (iosStopPersistentNotification st id).1 id = false) ∧
    androidIsNotificationActive
      (androidStartPersistentNotification stA opts now).1 id = true ∧
    (∀ st : AndroidState,
      androidIsNotificationActive (androidStopPersistentNotification st id).1 id = false) := by
  refine ⟨?_, ?_, ?_, ?_⟩
  · simp only [iosStartPersistentNotification, hc, hid, ht, hb]
    cases hA : opts.actions with
    | none =>
      simp only [iosIsNotificationActive]
      exact any_addRequest _ _ _ rfl
    | some acts =>
      simp only [iosIsNotificationActive]
      exact any_addRequest _ _ _ rfl
  · intro st
    simp only [iosStopPersistentNotification, iosIsNotificationActive]
    exact any_filter_ne_identifier _ _
  · simp [androidStartPersistentNotification, onStartCommandStart,
      startForegroundNotification, startAutoUpdate,
      androidIsNotificationActive, isServiceRunning]
  · intro st
    by_cases h : st.isRunning <;>
      simp [androidStopPersistentNotification, stopForegroundService, stopAutoUpdate,
        androidIsNotificationActive, isServiceRunning, h]

/-- Witness for C1 at a concrete valid input. -/
theorem c1_witness :
    iosIsNotificationActive
      (iosStartPersistentNotification IOSState.init sampleOpts).1 "bus" = true ∧
    iosIsNotificationActive
      (iosStopPersistentNotification IOSState.init "bus").1 "bus" = false ∧
    androidIsNotificationActive
      (androidStartPersistentNotification AndroidState.init sampleOpts 0).1 "bus" = true ∧
    androidIsNotificationActive
      (androidStopPersistentNotification AndroidState.init "bus").1 "bus" = false := by
  have h := c1_isActive_tracks_start_and_stop IOSState.init AndroidState.init
    sampleOpts "bus" "T" "B" sampleContent 0 rfl rfl rfl rfl
  exact ⟨h.1, h.2.1 IOSState.init, h.2.2.1, h.2.2.2 AndroidState.init⟩

/-- Counterexample to C2: after starting the notification `"bus"`, two
successive `stop("bus")` calls emit two
`onServiceStatusChange{isRunning:false}` events, not exactly one — on
Android and on iOS alike (the second stop targets an already-stopped id
and still emits). -/
theorem c2_counterexample :
    (((androidStopPersistentNotification
        (androidStartPersistentNotification AndroidState.init sampleOpts 0).1 "bus").2.1 ++
      (androidStopPersistentNotification
        (androidStopPersistentNotification
          (androidStartPersistentNotification AndroidState.init sampleOpts 0).1
          "bus").1 "bus").2.1).countP
      isStopStatusEvent = 2 ∧
    ¬ (((androidStopPersistentNotification
        (androidStartPersistentNotification AndroidState.init sampleOpts 0).1 "bus").2.1 ++
      (androidStopPersistentNotification
        (androidStopPersistentNotification
          (androidStartPersistentNotification AndroidState.init sampleOpts 0).1
          "bus").1 "bus").2.1).countP
      isStopStatusEvent = 1)) ∧
    (((iosStopPersistentNotification
        (iosStartPersistentNotification IOSState.init sampleOpts).1 "bus").2.1 ++
      (iosStopPersistentNotification
        (iosStopPersistentNotification
          (iosStartPersistentNotification IOSState.init sampleOpts).1 "bus").1
        "bus").2.1).countP
      isStopStatusEvent = 2 ∧
    ¬ (((iosStopPersistentNotification
        (iosStartPersistentNotification IOSState.init sampleOpts).1 "bus").2.1 ++
      (iosStopPersistentNotification
        (iosStopPersistentNotification
          (iosStartPersistentNotification IOSState.init sampleOpts).1 "bus").1
        "bus").2.1).countP
      isStopStatusEvent = 1)) := by
  decide

/-- Claim C2 as amended: every `stop(id)` call emits exactly one
`onServiceStatusChange{isRunning:false}` event — so, from any state on
either platform, two successive `stop(id)` calls emit exactly two —
and stopping an already-stopped id resolves without error and leaves the
platform state unchanged (Android: the service state; iOS: the pending
requests). -/
theorem c2_stop_one_event_per_call (stA : AndroidState) (stI : IOSState) (id : String) :
    (androidStopPersistentNotification stA id).2.1 =
      [Event.statusChange false (some id)] ∧
    (androidStopPersistentNotification stA id).2.2 = PromiseResult.resolved ∧
    (stA.isRunning = false → (androidStopPersistentNotification stA id).1 = stA) ∧
    (iosStopPersistentNotification stI id).2.1 =
      [Event.statusChange false (some id)] ∧
    (iosStopPersistentNotification stI id).2.2 = PromiseResult.resolved ∧
    (iosIsNotificationActive stI id = false →
      (iosStopPersistentNotification stI id).1.pending = stI.pending) ∧
    ((androidStopPersistentNotification stA id).2.1 ++
      (androidStopPersistentNotification
        (androidStopPersistentNotification stA id).1 id).2.1).countP
      isStopStatusEvent = 2 ∧
    ((iosStopPersistentNotification stI id).2.1 ++
      (iosStopPersistentNotification
        (iosStopPersistentNotification stI id).1 id).2.1).countP
      isStopStatusEvent = 2 := by
  refine ⟨rfl, rfl, ?_, rfl, rfl, ?_, rfl, rfl⟩
  · intro h
    simp [androidStopPersistentNotification, h]
  · intro h
    simp only [iosStopPersistentNotification]
    exact filter_ne_of_not_any _ _ h

/-- Witness for C2's amended claim at a concrete stopped state. -/
theorem c2_witness :
    (androidStopPersistentNotification AndroidState.init "x").1 = AndroidState.init ∧
    (iosStopPersistentNotification IOSState.init "x").1.pending = IOSState.init.pending := by
  have h := c2_stop_one_event_per_call AndroidState.init IOSState.init "x"
  exact ⟨h.2.2.1 rfl, h.2.2.2.2.2.1 rfl⟩

/-- Counterexample to C3: the iOS `requestPermissions` result when the user
grants notification authorization reports `notifications:true` and
`location:false`, yet its overall status is `"granted"`, not `"denied"`. -/
theorem c3_counterexample :
    (iosRequestPermissions true).notifications = true ∧
    (iosRequestPermissions true).location = false ∧
    (iosRequestPermissions true).status = "granted" ∧
    (iosRequestPermissions true).status ≠ "denied" := by
  decide

/-- Claim C3 as amended: on Android the overall status is `granted` iff
both the notification and the location permission are granted — both for
`getPermissionStatus` and for `requestPermissions` (pre-API-33,
notifications are reported as always granted) — and the nested fields
report each permission independently; on iOS only notification permission
is considered: `location` is always reported `false` and the status
follows the notification grant alone. -/
theorem c3_permission_reduction (sdk33 post fine notif loc granted : Bool) :
    ((androidGetPermissionStatus sdk33 post fine).status = "granted" ↔
      ((androidGetPermissionStatus sdk33 post fine).notifications = true ∧
       (androidGetPermissionStatus sdk33 post fine).location = true)) ∧
    ((androidGetPermissionStatus sdk33 post fine).status = "granted" ∨
      (androidGetPermissionStatus sdk33 post fine).status = "denied") ∧
    ((androidGetPermissionStatus sdk33 post fine).notifications =
      (if sdk33 then post else true)) ∧
    ((androidGetPermissionStatus sdk33 post fine).location = fine) ∧
    ((androidRequestPermissions33 notif loc).status = "granted" ↔
      (notif = true ∧ loc = true)) ∧
    ((androidRequestPermissions33 notif loc).notifications = notif) ∧
    ((androidRequestPermissions33 notif loc).location = loc) ∧
    ((androidRequestPermissionsPre13 loc).notifications = true) ∧
    ((androidRequestPermissionsPre13 loc).status = "granted" ↔ loc = true) ∧
    ((androidRequestPermissionsPre13 loc).location = loc) ∧
    ((iosRequestPermissions granted).status =
      (if granted then "granted" else "denied")) ∧
    ((iosRequestPermissions granted).notifications = granted) ∧
    ((iosRequestPermissions granted).location = false) := by
  cases sdk33 <;> cases post <;> cases fine <;> cases notif <;> cases loc <;>
    cases granted <;> decide

/-- Counterexample to C5: starting with options that carry no
`arrivalMinutes` still schedules the auto-update tick, and still computes
an arrival deadline — `now + 5*60*1000` from the default of 5 minutes. -/
theorem c5_counterexample :
    noArrivalOpts.arrivalMinutes = none ∧
    Callback.tick ∈
      (androidStartPersistentNotification AndroidState.init noArrivalOpts 0).1.scheduled ∧
    (androidStartPersistentNotification
      AndroidState.init noArrivalOpts 0).1.arrivalTimeMillis = 300000 := by
  decide

/-- Claim C5 as amended: `start(options)` always starts the Auto-Update
Timer, and always computes the arrival deadline as
`now + arrivalMinutes*60s`, with `arrivalMinutes` defaulting to 5 when it
is absent from the options. -/
theorem c5_start_always_arms_timer (st : AndroidState) (opts : StartOptions) (now : Int) :
    (androidStartPersistentNotification st opts now).1.arrivalTimeMillis =
      now + (opts.arrivalMinutes.getD 5) * 60 * 1000 ∧
    Callback.tick ∈ (androidStartPersistentNotification st opts now).1.scheduled := by
  constructor <;>
    simp [androidStartPersistentNotification, onStartCommandStart,
      startForegroundNotification, startAutoUpdate]

/-- Claim C4: on an auto-update tick with remaining time greater than
zero, exactly one notification is rendered, whose body substitutes
`N = ceil(remaining minutes) >= 1` into the body template — the singular
variant when `N = 1`, the plural variant when `N > 1`, and the template
maps `N <= 0` to the distinct arriving-now message — and whose title is
the constant tracking string, unaffected by the timer. -/
theorem c4_tick_render (st : AndroidState) (opts : StartOptions) (now : Int)
    (hopts : st.notificationOptions = some opts)
    (hpos : 0 < st.arrivalTimeMillis - now) :
    1 ≤ ceilMinutes (st.arrivalTimeMillis - now) ∧
    (runUpdateRunnable st now).2 =
      [Event.render (buildNotification
        (withAutoContent opts (ceilMinutes (st.arrivalTimeMillis - now))))] ∧
    (buildNotification
      (withAutoContent opts (ceilMinutes (st.arrivalTimeMillis - now)))).title =
      "Rastreando ubicación" ∧
    (buildNotification
      (withAutoContent opts (ceilMinutes (st.arrivalTimeMillis - now)))).body =
      busBody (ceilMinutes (st.arrivalTimeMillis - now)) ∧
    busBody 1 = "Próximo bus en 1 minuto" ∧
    (∀ n : Int, 1 < n → busBody n = "Próximo bus en " ++ toString n ++ " minutos") ∧
    (∀ n : Int, n ≤ 0 → busBody n = "¡El bus está llegando!") := by
  have hn : ¬ (st.arrivalTimeMillis - now ≤ 0) := by omega
  refine ⟨one_le_ceilMinutes _ hpos, ?_, ?_, ?_, ?_, ?_, ?_⟩
  · simp [runUpdateRunnable, updateNotificationWithTime, hopts, hn]
  · simp [buildNotification, withAutoContent]
  · simp [buildNotification, withAutoContent]
  · rfl
  · intro n h
    simp [busBody, h]
  · intro n h
    have h1 : ¬ (n > 1) := by omega
    have h2 : ¬ (n = 1) := by omega
    simp [busBody, h1, h2]

/-- Witness for C4: tick at 6 seconds into a 5-minute countdown. -/
theorem c4_witness :
    (runUpdateRunnable
      (androidStartPersistentNotification AndroidState.init sampleOpts 0).1 6000).2 =
      [Event.render (buildNotification (withAutoContent sampleOpts
        (ceilMinutes
          ((androidStartPersistentNotification
            AndroidState.init sampleOpts 0).1.arrivalTimeMillis - 6000))))] ∧
    1 ≤ ceilMinutes
      ((androidStartPersistentNotification
        AndroidState.init sampleOpts 0).1.arrivalTimeMillis - 6000) := by
  have h := c4_tick_render
    (androidStartPersistentNotification AndroidState.init sampleOpts 0).1
    sampleOpts 6000 rfl (by decide)
  exact ⟨h.2.1, h.1⟩

/-- A `filterMap` over entries whose required fields are present is a
`map`. -/
theorem filterMap_eq_map_of_wf {β : Type} (f : ActionSpec → Option β)
    (g : ActionSpec → β)
    (hfg : ∀ a : ActionSpec, a.id.isSome = true → a.title.isSome = true →
      f a = some (g a))
    (l : List ActionSpec)
    (hwf : ∀ a ∈ l, a.id.isSome = true ∧ a.title.isSome = true) :
    l.filterMap f = l.map g := by
  induction l with
  | nil => rfl
  | cons a t ih =>
    have ha := hwf a (List.mem_cons_self a t)
    rw [List.filterMap_cons, List.map_cons, hfg a ha.1 ha.2,
      ih (fun x hx => hwf x (List.mem_cons_of_mem a hx))]

/-- Claim C6: a `start` input whose actions list has more than 3 entries
(all well-formed) registers exactly the first 3 actions in original order,
on both platforms; excess entries are silently dropped (the registration
functions are total — no error is raised). -/
theorem c6_action_truncation (acts : List ActionSpec)
    (hwf : ∀ a ∈ acts, a.id.isSome = true ∧ a.title.isSome = true)
    (hlen : 3 < acts.length) :
    androidActions acts =
      (acts.take 3).map (fun a => { id := a.id.getD "", title := a.title.getD "" }) ∧
    (androidActions acts).length = 3 ∧
    iosRegisteredActions acts =
      (acts.take 3).map (fun a =>
        { identifier := a.id.getD "", title := a.title.getD ""
          foreground := a.foreground.getD false }) ∧
    (iosRegisteredActions acts).length = 3 := by
  have hwf3 : ∀ a ∈ acts.take 3, a.id.isSome = true ∧ a.title.isSome = true :=
    fun a ha => hwf a (List.mem_of_mem_take ha)
  have hlen3 : (acts.take 3).length = 3 := by
    rw [List.length_take]
    omega
  have hAnd : androidActions acts =
      (acts.take 3).map (fun a =>
        ({ id := a.id.getD "", title := a.title.getD "" } : RegisteredAction)) := by
    unfold androidActions
    refine filterMap_eq_map_of_wf _ _ ?_ _ hwf3
    intro a h1 h2
    obtain ⟨i, hi⟩ := Option.isSome_iff_exists.mp h1
    obtain ⟨t, ht⟩ := Option.isSome_iff_exists.mp h2
    simp [hi, ht]
  have hIos : iosRegisteredActions acts =
      (acts.take 3).map (fun a =>
        ({ identifier := a.id.getD "", title := a.title.getD ""
           foreground := a.foreground.getD false } : IOSAction)) := by
    unfold iosRegisteredActions
    refine filterMap_eq_map_of_wf _ _ ?_ _ hwf3
    intro a h1 h2
    obtain ⟨i, hi⟩ := Option.isSome_iff_exists.mp h1
    obtain ⟨t, ht⟩ := Option.isSome_iff_exists.mp h2
    simp [hi, ht]
  refine ⟨hAnd, ?_, hIos, ?_⟩
  · rw [hAnd, List.length_map, hlen3]
  · rw [hIos, List.length_map, hlen3]

/-- Witness for C6: five concrete actions yield exactly the first three. -/
theorem c6_witness :
    androidActions fiveActions =
      (fiveActions.take 3).map
        (fun a => { id := a.id.getD "", title := a.title.getD "" }) ∧
    (androidActions fiveActions).length = 3 ∧
    (iosRegisteredActions fiveActions).length = 3 := by
  have h := c6_action_truncation fiveActions (by decide) (by decide)
  exact ⟨h.1, h.2.1, h.2.2.2⟩

/-- Counterexample to C7: a `start` whose `id`, `title` and `body` are all
the empty string is not rejected with `InvalidOptions` — on iOS it
resolves and registers the notification. -/
theorem c7_counterexample :
    emptyIdOpts.id = some "" ∧
    emptyIdOpts.content.bind ContentSpec.title = some "" ∧
    emptyIdOpts.content.bind ContentSpec.body = some "" ∧
    (iosStartPersistentNotification IOSState.init emptyIdOpts).2.2 =
      PromiseResult.resolved ∧
    (iosStartPersistentNotification IOSState.init emptyIdOpts).2.2 ≠
      PromiseResult.rejected "ERR_INVALID_OPTIONS" ∧
    iosIsNotificationActive
      (iosStartPersistentNotification IOSState.init emptyIdOpts).1 "" = true ∧
    getKey (iosStartPersistentNotification IOSState.init emptyIdOpts).1.activeNotifications
      "" = some true := by
  decide

/-- Claim C7 as amended: iOS `start` rejects with `InvalidOptions` exactly
when `id`, `content`, `content.title` or `content.body` is missing from
the options (a failed presence/type check) — emptiness is not checked —
and a rejected call registers nothing and emits nothing; the Android
module performs no validation and always resolves. -/
theorem c7_invalid_options_iff_missing (st : IOSState) (stA : AndroidState)
    (opts : StartOptions) (now : Int) :
    ((iosStartPersistentNotification st opts).2.2 =
        PromiseResult.rejected "ERR_INVALID_OPTIONS" ↔
      (opts.content = none ∨ opts.id = none ∨
       opts.content.bind ContentSpec.title = none ∨
       opts.content.bind ContentSpec.body = none)) ∧
    ((iosStartPersistentNotification st opts).2.2 =
        PromiseResult.rejected "ERR_INVALID_OPTIONS" →
      iosStartPersistentNotification st opts =
        (st, [], PromiseResult.rejected "ERR_INVALID_OPTIONS")) ∧
    (androidStartPersistentNotification stA opts now).2.2 = PromiseResult.resolved := by
  obtain ⟨oid, oc, oa, om⟩ := opts
  refine ⟨?_, ?_, rfl⟩
  · cases oc with
    | none => cases oid <;> simp [iosStartPersistentNotification]
    | some c =>
      obtain ⟨ot, ob⟩ := c
      cases oid <;> cases ot <;> cases ob <;>
        simp [iosStartPersistentNotification]
  · cases oc with
    | none => cases oid <;> simp [iosStartPersistentNotification]
    | some c =>
      obtain ⟨ot, ob⟩ := c
      cases oid <;> cases ot <;> cases ob <;>
        simp [iosStartPersistentNotification]

/-- Witness for C7's amended claim: a fully-missing input rejects and a
fully-present (though empty-string) input does not. -/
theorem c7_witness :
    ((iosStartPersistentNotification IOSState.init
        { id := none, content := none, actions := none, arrivalMinutes := none }).2.2 =
      PromiseResult.rejected "ERR_INVALID_OPTIONS") ∧
    iosStartPersistentNotification IOSState.init
        { id := none, content := none, actions := none, arrivalMinutes := none } =
      (IOSState.init, [], PromiseResult.rejected "ERR_INVALID_OPTIONS") ∧
    ¬ ((iosStartPersistentNotification IOSState.init emptyIdOpts).2.2 =
      PromiseResult.rejected "ERR_INVALID_OPTIONS") := by
  have h1 := c7_invalid_options_iff_missing IOSState.init AndroidState.init
    { id := none, content := none, actions := none, arrivalMinutes := none } 0
  have h2 := c7_invalid_options_iff_missing IOSState.init AndroidState.init
    emptyIdOpts 0
  refine ⟨h1.1.mpr (Or.inl rfl), h1.2.1 (h1.1.mpr (Or.inl rfl)), ?_⟩
  intro hcon
  have := h2.1.mp hcon
  simp [emptyIdOpts] at this

/-- The tick never survives its own removal filter. -/
theorem tick_not_mem_filter (l : List Callback) :
    Callback.tick ∉ l.filter (· != Callback.tick) := by
  intro h
  have := (List.mem_filter.mp h).2
  simp at this

/-- Claim C9 (implicit): Android `isNotificationActive(id)` ignores its id
argument — any two ids queried in the same state agree, and after starting
only `"bus"` the query for an id that was never started still returns
true, because it reports the global service-running flag. -/
theorem c9_isActive_ignores_id :
    (∀ (st : AndroidState) (id1 id2 : String),
      androidIsNotificationActive st id1 = androidIsNotificationActive st id2) ∧
    (∀ (st : AndroidState) (id : String),
      androidIsNotificationActive st id = isServiceRunning st) ∧
    sampleOpts.id = some "bus" ∧
    androidIsNotificationActive
      (androidStartPersistentNotification AndroidState.init sampleOpts 0).1
      "never-started" = true := by
  exact ⟨fun _ _ _ => rfl, fun _ _ => rfl, rfl, by decide⟩

/-- Claim C10 (implicit): iOS `updateNotificationContent(id, content)` for
an id with no pending request does not fail with NotFound — it resolves,
posts a brand-new request under that identifier with no category
preserved, and emits `onNotificationUpdate`, so the id is active again
afterwards (update after stop resurrects the notification). -/
theorem c10_update_missing_id_resurrects (st : IOSState) (id : String)
    (c : ContentSpec) (title body : String)
    (ht : c.title = some title) (hb : c.body = some body)
    (habsent : st.pending.any (·.identifier == id) = false) :
    (iosUpdateNotificationContent st id c).2.2 = PromiseResult.resolved ∧
    (iosUpdateNotificationContent st id c).2.1 = [Event.notificationUpdate id] ∧
    (iosUpdateNotificationContent st id c).1.pending =
      st.pending ++
        [{ identifier := id, title := title, body := body, categoryIdentifier := none }] ∧
    iosIsNotificationActive (iosUpdateNotificationContent st id c).1 id = true := by
  simp only [iosUpdateNotificationContent, ht, hb,
    find_eq_none_of_not_any st.pending id habsent, Option.bind]
  refine ⟨trivial, trivial, ?_, ?_⟩
  · simp only [addRequest, filter_ne_of_not_any st.pending id habsent]
  · simp only [iosIsNotificationActive]
    exact any_addRequest _ _ _ rfl

/-- Witness for C10: start, stop, then update the stopped id — the
notification is resurrected. -/
theorem c10_witness :
    (iosUpdateNotificationContent
      (iosStopPersistentNotification
        (iosStartPersistentNotification IOSState.init sampleOpts).1 "bus").1
      "bus" sampleContent).2.2 = PromiseResult.resolved ∧
    iosIsNotificationActive
      (iosUpdateNotificationContent
        (iosStopPersistentNotification
          (iosStartPersistentNotification IOSState.init sampleOpts).1 "bus").1
        "bus" sampleContent).1 "bus" = true := by
  have h := c10_update_missing_id_resurrects
    (iosStopPersistentNotification
      (iosStartPersistentNotification IOSState.init sampleOpts).1 "bus").1
    "bus" sampleContent "T" "B" rfl rfl (by decide)
  exact ⟨h.1, h.2.2.2⟩

end PersistentNotifications
